import Mathlib

/-!
Shallow embedding of the ai-gateway service (Rust, actix-web) used to check
the natural-language specification against the source code.

Each definition mirrors one function or type of the source tree:
  src/models/mod.rs          : wire shapes (canonical and Ollama)
  src/providers/ollama.rs    : the non-streaming adapter and the streaming
                               line-JSON to SSE translator
  src/providers/fallback.rs  : the fallback composition
  src/middleware/auth.rs     : bearer-token authentication
  src/middleware/rate_limit.rs : the token bucket
  src/tracking/mod.rs        : the usage tracker and its persisted form
  src/handlers/chat.rs       : the chat handler (non-streaming path)
  src/handlers/stats.rs      : the key-masking helper

Numeric conventions: Rust u32/u64 fields are modelled as Nat; the one place
where a u32 addition can overflow (usage total_tokens sums) uses an explicit
wrap modulo 2^32 (u32add).  f64 bucket arithmetic is modelled over the
rationals.  SystemTime is modelled as nanoseconds since the UNIX epoch (Int,
negative values standing for pre-epoch instants).
-/

namespace Gateway

/-- models/mod.rs `Message`. -/
structure Message where
  role : String
  content : String
deriving DecidableEq, Repr

/-- models/mod.rs `Usage` (all fields u32 in the source). -/
structure Usage where
  prompt_tokens : Nat
  completion_tokens : Nat
  total_tokens : Nat
deriving DecidableEq, Repr

/-- Rust u32 wrapping addition (release-mode semantics of `a + b` on u32). -/
def u32add (a b : Nat) : Nat := (a + b) % 4294967296

/-- models/mod.rs `Delta`. -/
structure Delta where
  role : Option String
  content : String
deriving DecidableEq, Repr

/-- models/mod.rs `ChunkChoice`. -/
structure ChunkChoice where
  index : Nat
  delta : Delta
  finish_reason : Option String
deriving DecidableEq, Repr

/-- The stream chunk shape built by providers/ollama.rs `chat_stream`
(id, object, created, model, choices, usage). -/
structure ChatCompletionChunk where
  id : String
  object : String
  created : Nat
  model : String
  choices : List ChunkChoice
  usage : Option Usage
deriving DecidableEq, Repr

/-- The per-line upstream shape deserialized by providers/ollama.rs
`chat_stream` (model, message, done, optional terminal counts). -/
structure OllamaStreamChunk where
  model : String
  message : Message
  done : Bool
  prompt_eval_count : Option Nat
  eval_count : Option Nat
deriving DecidableEq, Repr

/-- models/mod.rs `ChatCompletionRequest`. -/
structure ChatCompletionRequest where
  model : String
  messages : List Message
  stream : Option Bool
deriving DecidableEq, Repr

/-- models/mod.rs `Choice`. -/
structure Choice where
  index : Nat
  message : Message
  finish_reason : String
deriving DecidableEq, Repr

/-- models/mod.rs `ChatCompletionResponse`. -/
structure ChatCompletionResponse where
  id : String
  object : String
  created : Nat
  model : String
  choices : List Choice
  usage : Usage
deriving DecidableEq, Repr

/-- models/mod.rs `OllamaResponse` (the non-streaming upstream body). -/
structure OllamaResponse where
  model : String
  created_at : String
  message : Message
  done : Bool
  total_duration : Nat
  prompt_eval_count : Nat
  eval_count : Nat
deriving DecidableEq, Repr

/-- providers/mod.rs `ProviderError`. -/
inductive ProviderError where
  | network (msg : String)
  | parse (msg : String)
  | provider (status : Nat) (message : String)
deriving DecidableEq, Repr

/-! ## Fallback composition (providers/fallback.rs) -/

/-- The model override performed by `FallbackProvider::chat` before calling
the backup: when a `fallback_model` is configured the request model is
replaced, otherwise the request is passed unchanged. -/
def overrideModel (fallback_model : Option String) (r : ChatCompletionRequest) :
    ChatCompletionRequest :=
  match fallback_model with
  | some m => { r with model := m }
  | none => r

/-- providers/fallback.rs `FallbackProvider::chat`.  The two providers are
passed as functions from request to result.  The second component of the
result is the list of requests handed to the backup provider, so that the
number of backup invocations is part of the observable behaviour. -/
def fallbackChat
    (primary backup : ChatCompletionRequest → Except ProviderError ChatCompletionResponse)
    (fallback_model : Option String) (request : ChatCompletionRequest) :
    Except ProviderError ChatCompletionResponse × List ChatCompletionRequest :=
  match primary request with
  | Except.ok response => (Except.ok response, [])
  | Except.error _ =>
      let backup_req := overrideModel fallback_model request
      (backup backup_req, [backup_req])

/-! ## Token bucket (middleware/rate_limit.rs) -/

/-- middleware/rate_limit.rs `Bucket`.  The f64 fields are modelled as
rationals; `last_updated` is a monotonic-clock reading in seconds. -/
structure Bucket where
  tokens : ℚ
  last_updated : ℚ
  capacity : ℚ
  refill_rate : ℚ
deriving DecidableEq, Repr

/-- `Bucket::new`: starts full. -/
def Bucket.new (capacity refill_rate now : ℚ) : Bucket :=
  { tokens := capacity, last_updated := now, capacity := capacity,
    refill_rate := refill_rate }

/-- The refill step of `Bucket::try_consume`: `Instant::duration_since`
saturates at zero when `now` is earlier, and the refilled amount is capped at
the capacity by `.min(self.capacity)`. -/
def Bucket.refilledTokens (b : Bucket) (now : ℚ) : ℚ :=
  min (b.tokens + max (now - b.last_updated) 0 * b.refill_rate) b.capacity

/-- middleware/rate_limit.rs `Bucket::try_consume`: refill, update
`last_updated`, then consume one token iff at least one token is present. -/
def Bucket.try_consume (b : Bucket) (now : ℚ) : Bool × Bucket :=
  if 1 ≤ b.refilledTokens now then
    (true, { b with tokens := b.refilledTokens now - 1, last_updated := now })
  else
    (false, { b with tokens := b.refilledTokens now, last_updated := now })

/-- The bucket invariant stated in the specification. -/
def Bucket.Inv (b : Bucket) : Prop := 0 ≤ b.tokens ∧ b.tokens ≤ b.capacity

/-! ## Usage tracker (tracking/mod.rs) -/

/-- tracking/mod.rs `KeyStats`.  Counters are u64; `models_used` is a
HashMap modelled as an association list with unique keys;
`last_request_timestamp` is a SystemTime modelled as nanoseconds since the
UNIX epoch. -/
structure KeyStats where
  request_count : Nat
  error_count : Nat
  total_latency_ms : Nat
  total_prompt_tokens : Nat
  total_completion_tokens : Nat
  models_used : List (String × Nat)
  last_request_timestamp : Int
deriving DecidableEq, Repr

/-- `KeyStats::new`: zeroed counters, `last_request_timestamp` set to the
current time (the `now` argument models `SystemTime::now()`). -/
def KeyStats.new (now : Int) : KeyStats :=
  { request_count := 0, error_count := 0, total_latency_ms := 0,
    total_prompt_tokens := 0, total_completion_tokens := 0,
    models_used := [], last_request_timestamp := now }

/-- First-match association-list lookup (HashMap `get`). -/
def lookupKey {α : Type} : List (String × α) → String → Option α
  | [], _ => none
  | (k, v) :: rest, key => if k = key then some v else lookupKey rest key

/-- HashMap `entry(key).or_insert_with(default)` followed by a mutation `f`
of the entry: on a hit the stored value becomes `f v`, on a miss the key is
inserted with value `f default`. -/
def updateAssoc {α : Type} : List (String × α) → String → α → (α → α) → List (String × α)
  | [], key, default, f => [(key, f default)]
  | (k, v) :: rest, key, default, f =>
      if k = key then (k, f v) :: rest
      else (k, v) :: updateAssoc rest key default f

/-- `*stats.models_used.entry(model).or_insert(0) += 1`. -/
def bumpModel (mu : List (String × Nat)) (model : String) : List (String × Nat) :=
  updateAssoc mu model 0 (fun n => n + 1)

/-- tracking/mod.rs `RequestTracker` (the HashMap modelled as an association
list with unique keys). -/
structure RequestTracker where
  stats : List (String × KeyStats)
deriving DecidableEq, Repr

/-- `RequestTracker::get_stats`. -/
def RequestTracker.get_stats (T : RequestTracker) (api_key : String) : Option KeyStats :=
  lookupKey T.stats api_key

/-- tracking/mod.rs `RequestTracker::record_tokens`: creates the entry on
first touch (via `KeyStats::new`, hence `now`), then adds the token counts
and bumps the model histogram. -/
def RequestTracker.record_tokens (T : RequestTracker) (now : Int) (api_key : String)
    (prompt_tokens completion_tokens : Nat) (model : String) : RequestTracker :=
  ⟨updateAssoc T.stats api_key (KeyStats.new now) (fun s =>
    { s with
      total_prompt_tokens := s.total_prompt_tokens + prompt_tokens,
      total_completion_tokens := s.total_completion_tokens + completion_tokens,
      models_used := bumpModel s.models_used model })⟩

/-- tracking/mod.rs `RequestTracker::record_request`. -/
def RequestTracker.record_request (T : RequestTracker) (now : Int) (api_key : String)
    (latency_ms : Nat) (is_error : Bool) : RequestTracker :=
  ⟨updateAssoc T.stats api_key (KeyStats.new now) (fun s =>
    { s with
      request_count := s.request_count + 1,
      total_latency_ms := s.total_latency_ms + latency_ms,
      last_request_timestamp := now,
      error_count := if is_error then s.error_count + 1 else s.error_count })⟩

/-! ## Persistence (tracking/mod.rs `system_time_as_millis`, save/load)

`save_to_file` serializes the tracker with serde_json; the only field whose
stored form differs from its in-memory form is `last_request_timestamp`,
written as whole milliseconds since the UNIX epoch (u64), computed by
`duration_since(UNIX_EPOCH).unwrap_or_default().as_millis() as u64`.
`load_from_file` reads the stored form back, rebuilding the SystemTime as
`UNIX_EPOCH + Duration::from_millis(millis)`.  The JSON transport itself
(string keys, u64 counters, string-to-u64 maps) is faithful for this schema,
so it is elided: save and load are modelled as maps to and from the stored
record. -/

/-- The on-disk shape of one `KeyStats` record. -/
structure StoredKeyStats where
  request_count : Nat
  error_count : Nat
  total_latency_ms : Nat
  total_prompt_tokens : Nat
  total_completion_tokens : Nat
  models_used : List (String × Nat)
  last_request_timestamp : Nat
deriving DecidableEq, Repr

/-- `duration_since(UNIX_EPOCH).unwrap_or_default().as_millis() as u64`:
pre-epoch instants clamp to zero, nanoseconds floor-divide to milliseconds,
and the u128 millisecond count truncates to u64. -/
def systemTimeToMillis (t : Int) : Nat :=
  ((max t 0).toNat / 1000000) % 18446744073709551616

/-- `UNIX_EPOCH + Duration::from_millis(millis)`, in nanoseconds. -/
def millisToSystemTime (m : Nat) : Int := (m : Int) * 1000000

/-- Serialization of one `KeyStats` (tracking/mod.rs `Serialize`). -/
def KeyStats.toStored (s : KeyStats) : StoredKeyStats :=
  { request_count := s.request_count, error_count := s.error_count,
    total_latency_ms := s.total_latency_ms,
    total_prompt_tokens := s.total_prompt_tokens,
    total_completion_tokens := s.total_completion_tokens,
    models_used := s.models_used,
    last_request_timestamp := systemTimeToMillis s.last_request_timestamp }

/-- Deserialization of one `KeyStats` (tracking/mod.rs `Deserialize`). -/
def KeyStats.ofStored (s : StoredKeyStats) : KeyStats :=
  { request_count := s.request_count, error_count := s.error_count,
    total_latency_ms := s.total_latency_ms,
    total_prompt_tokens := s.total_prompt_tokens,
    total_completion_tokens := s.total_completion_tokens,
    models_used := s.models_used,
    last_request_timestamp := millisToSystemTime s.last_request_timestamp }

/-- The on-disk shape of the whole tracker (`\x7b stats: ... \x7d`). -/
structure StoredTracker where
  stats : List (String × StoredKeyStats)
deriving DecidableEq, Repr

/-- `RequestTracker::save_to_file`, minus the file I/O. -/
def RequestTracker.toStored (T : RequestTracker) : StoredTracker :=
  ⟨T.stats.map (fun e => (e.1, e.2.toStored))⟩

/-- `RequestTracker::load_from_file`, minus the file I/O. -/
def RequestTracker.ofStored (S : StoredTracker) : RequestTracker :=
  ⟨S.stats.map (fun e => (e.1, KeyStats.ofStored e.2))⟩

/-- Saving a tracker to stats.json and loading it back. -/
def trackerRoundTrip (T : RequestTracker) : RequestTracker :=
  RequestTracker.ofStored T.toStored

/-! ## Authentication middleware (middleware/auth.rs) and the health route -/

/-- middleware/auth.rs `ApiKeyRole`. -/
inductive ApiKeyRole where
  | user
  | admin
deriving DecidableEq, Repr

/-- middleware/auth.rs `ValidatedApiKey`. -/
structure ValidatedApiKey where
  key : String
  role : ApiKeyRole
deriving DecidableEq, Repr

/-- An incoming HTTP request, reduced to the parts the auth layer reads. -/
structure GatewayRequest where
  method : String
  path : String
  authHeader : Option String
deriving DecidableEq, Repr

/-- An HTTP response, reduced to status and body. -/
structure GatewayResponse where
  status : Nat
  body : String
deriving DecidableEq, Repr

/-- `h.strip_prefix("Bearer ")` (byte-literal, case-sensitive, single
space; the prefix is ASCII so character-level drop agrees with the Rust
byte-level strip). -/
def stripBearer (h : String) : Option String :=
  match h.data with
  | 'B' :: 'e' :: 'a' :: 'r' :: 'e' :: 'r' :: ' ' :: rest => some (String.mk rest)
  | _ => none

/-- The role lookup of `AuthMiddlewareService::call`: admin keys first,
then user keys, else rejection. -/
def roleFor (api_keys admin_keys : List String) (t : String) : Option ApiKeyRole :=
  if admin_keys.contains t then some ApiKeyRole.admin
  else if api_keys.contains t then some ApiKeyRole.user
  else none

/-- middleware/auth.rs `AuthMiddlewareService::call`: extract the bearer
token from the Authorization header, look up its role, and either invoke the
inner service with a `ValidatedApiKey` attached or reject with 401.  The
source applies this middleware to every route of the `/v1` scope; it
contains no path inspection whatsoever. -/
def authCall (api_keys admin_keys : List String)
    (inner : GatewayRequest → Option ValidatedApiKey → GatewayResponse)
    (req : GatewayRequest) : GatewayResponse :=
  let token := req.authHeader.bind stripBearer
  match token with
  | some t =>
      match roleFor api_keys admin_keys t with
      | some r => inner req (some { key := t, role := r })
      | none => { status := 401, body := "Invalid or missing API key" }
  | none => { status := 401, body := "Invalid or missing API key" }

/-- main.rs `health`: 200 with body `ok`. -/
def healthHandler : GatewayResponse := { status := 200, body := "ok" }

/-- The composed service observed on the `/v1/health` route: in main.rs the
health route is registered inside the `App` that `AuthMiddleware` wraps, so
a request routed to `/v1/health` passes through `authCall` with the health
handler as the inner service. -/
def authedHealthApp (api_keys admin_keys : List String) (req : GatewayRequest) :
    GatewayResponse :=
  authCall api_keys admin_keys (fun _ _ => healthHandler) req

/-- The default user-key list (`GATEWAY_API_KEYS` unset): `secret-key`. -/
def defaultApiKeys : List String := ["secret-key"]

/-! ## Chat handler, non-streaming path (handlers/chat.rs lines 122-174) -/

/-- The outcome of the reqwest round trip to the upstream `/api/chat`
endpoint inside the handler: the send itself can fail, the body can fail to
decode as `OllamaResponse`, or decoding succeeds. -/
inductive UpstreamOutcome where
  | sendFailure (e : String)
  | parseFailure (e : String)
  | success (data : OllamaResponse)
deriving DecidableEq, Repr

/-- The handler response: 200 with a JSON `ChatCompletionResponse`, or a
500 with a diagnostic body. -/
inductive ChatHttpResponse where
  | okJson (resp : ChatCompletionResponse)
  | serverError (body : String)
deriving DecidableEq, Repr

/-- The response synthesis of handlers/chat.rs lines 154-169: fresh id
(`chatcmpl-` plus a UUID, passed in), `created` from the wall clock (passed
in), one choice with finish_reason `stop`, usage from the upstream eval
counts (u32 addition for the total). -/
def buildChatResponse (uuid : String) (timestamp : Nat) (d : OllamaResponse) :
    ChatCompletionResponse :=
  { id := "chatcmpl-" ++ uuid, object := "chat.completion", created := timestamp,
    model := d.model,
    choices := [{ index := 0, message := d.message, finish_reason := "stop" }],
    usage := { prompt_tokens := d.prompt_eval_count,
               completion_tokens := d.eval_count,
               total_tokens := u32add d.prompt_eval_count d.eval_count } }

/-- handlers/chat.rs `chat_completions`, non-streaming path (lines
122-174).  The Rust function receives only the HTTP client and the parsed
body; it has no access to the request tracker or to the ValidatedApiKey.  To
let statements about the tracker be made at all, the tracker state is
threaded through explicitly here; because the source never touches it, it is
returned unchanged in every branch. -/
def chat_completions_nonstreaming (uuid : String) (timestamp : Nat)
    (upstream : UpstreamOutcome) (tracker : RequestTracker) :
    ChatHttpResponse × RequestTracker :=
  match upstream with
  | UpstreamOutcome.sendFailure e => (ChatHttpResponse.serverError e, tracker)
  | UpstreamOutcome.parseFailure e =>
      (ChatHttpResponse.serverError ("Failed to parse response: " ++ e), tracker)
  | UpstreamOutcome.success d =>
      (ChatHttpResponse.okJson (buildChatResponse uuid timestamp d), tracker)

/-! ## Key masking (handlers/stats.rs `mask_key`) -/

/-- UTF-8 byte length of a character list (Rust `str::len`). -/
def utf8Len : List Char → Nat
  | [] => 0
  | c :: cs => c.utf8Size + utf8Len cs

/-- Rust byte-index slicing `(&s[..i], &s[i..])`: defined only when byte
index `i` falls on a character boundary within the string; `none` models the
panic that `str` slicing raises otherwise. -/
def byteSplitAt : List Char → Nat → Option (List Char × List Char)
  | s, 0 => some ([], s)
  | [], _ + 1 => none
  | c :: cs, i + 1 =>
      if c.utf8Size ≤ i + 1 then
        (byteSplitAt cs (i + 1 - c.utf8Size)).map (fun p => (c :: p.1, p.2))
      else none

/-- handlers/stats.rs `mask_key`: keys of byte length at most 8 become
`***`; longer keys become first-4-bytes ++ `***` ++ last-4-bytes.  The two
slices are byte slices, so the result is `none` (a panic) when byte index 4
or `len - 4` falls inside a multi-byte character. -/
def mask_key (key : List Char) : Option (List Char) :=
  if utf8Len key ≤ 8 then some "***".data
  else
    match byteSplitAt key 4 with
    | none => none
    | some p =>
        match byteSplitAt key (utf8Len key - 4) with
        | none => none
        | some s => some (p.1 ++ "***".data ++ s.2)

/-! ## A JSON parser modelling `serde_json::from_str`

The streaming translator parses each upstream line with
`serde_json::from_str::<OllamaStreamChunk>`.  To settle claims about concrete
lines (and about lines fragmented across reads) the JSON grammar is modelled
here over `List Char`: values are null, booleans, integers, strings, arrays
and objects, with standard whitespace and string escapes, and the whole input
must be consumed (modulo trailing whitespace), as `from_str` requires.
Deliberate restrictions, none of which is exercised by any claim: number
fractions/exponents and `\u` surrogate pairs are rejected rather than
decoded, and duplicate object keys resolve to the first occurrence. -/

/-- JSON values. -/
inductive Json where
  | null
  | bool (b : Bool)
  | num (n : Int)
  | str (s : String)
  | arr (elems : List Json)
  | obj (fields : List (String × Json))

/-- JSON whitespace. -/
def jsonWs (c : Char) : Bool :=
  c == ' ' || c == '\t' || c == '\n' || c == '\r'

/-- Skip leading JSON whitespace. -/
def skipWs (cs : List Char) : List Char := cs.dropWhile jsonWs

/-- Hexadecimal digit value. -/
def hexVal (c : Char) : Option Nat :=
  if c.isDigit then some (c.toNat - 48)
  else if 'a' ≤ c ∧ c ≤ 'f' then some (c.toNat - 87)
  else if 'A' ≤ c ∧ c ≤ 'F' then some (c.toNat - 55)
  else none

/-- Decimal digits to Nat. -/
def digitsToNat (ds : List Char) : Nat :=
  ds.foldl (fun acc c => acc * 10 + (c.toNat - 48)) 0

/-- Prepend a character to the content of a string-parse result. -/
def consChar (c : Char) (o : Option (List Char × List Char)) :
    Option (List Char × List Char) :=
  o.map (fun p => (c :: p.1, p.2))

/-- Parse the remainder of a JSON string after the opening quote, returning
the decoded content and the rest of the input after the closing quote.  Raw
control characters are rejected; escapes `\" \\ \/ \n \t \r \b \f` and
non-surrogate `\uXXXX` are decoded. -/
def parseStringRest : List Char → Option (List Char × List Char)
  | [] => none
  | '\"' :: rest => some ([], rest)
  | '\\' :: rest =>
      match rest with
      | '\"' :: r => consChar '\"' (parseStringRest r)
      | '\\' :: r => consChar '\\' (parseStringRest r)
      | '/' :: r => consChar '/' (parseStringRest r)
      | 'n' :: r => consChar '\n' (parseStringRest r)
      | 't' :: r => consChar '\t' (parseStringRest r)
      | 'r' :: r => consChar '\r' (parseStringRest r)
      | 'b' :: r => consChar (Char.ofNat 8) (parseStringRest r)
      | 'f' :: r => consChar (Char.ofNat 12) (parseStringRest r)
      | 'u' :: h1 :: h2 :: h3 :: h4 :: r =>
          match hexVal h1, hexVal h2, hexVal h3, hexVal h4 with
          | some a, some b, some c, some d =>
              let n := ((a * 16 + b) * 16 + c) * 16 + d
              if 55296 ≤ n ∧ n < 57344 then none
              else consChar (Char.ofNat n) (parseStringRest r)
          | _, _, _, _ => none
      | _ => none
  | c :: rest =>
      if c.toNat < 32 then none else consChar c (parseStringRest rest)

/-- Parse a JSON number starting at the current position (integer grammar:
optional minus, no leading zeros, fractions and exponents rejected). -/
def parseNumberFrom (cs : List Char) : Option (Json × List Char) :=
  let p := match cs with
    | '-' :: rest => (true, rest)
    | _ => (false, cs)
  let q := p.2.span Char.isDigit
  match q.1 with
  | [] => none
  | ds =>
      if ds.length > 1 && ds.head? == some '0' then none
      else
        match q.2 with
        | '.' :: _ => none
        | 'e' :: _ => none
        | 'E' :: _ => none
        | rest =>
            let n : Int := Int.ofNat (digitsToNat ds)
            some (Json.num (if p.1 then -n else n), rest)

mutual

/-- Parse one JSON value (fuel-indexed; the top-level entry point supplies
ample fuel, and the fuel only bounds recursion depth, never changes a parse
result that completes). -/
def parseValue : Nat → List Char → Option (Json × List Char)
  | 0, _ => none
  | fuel + 1, cs =>
      match skipWs cs with
      | [] => none
      | 'n' :: 'u' :: 'l' :: 'l' :: rest => some (Json.null, rest)
      | 't' :: 'r' :: 'u' :: 'e' :: rest => some (Json.bool true, rest)
      | 'f' :: 'a' :: 'l' :: 's' :: 'e' :: rest => some (Json.bool false, rest)
      | '\"' :: rest =>
          (parseStringRest rest).map (fun p => (Json.str (String.mk p.1), p.2))
      | '[' :: rest =>
          match skipWs rest with
          | ']' :: r => some (Json.arr [], r)
          | _ => (parseElemsLoop fuel rest).map (fun p => (Json.arr p.1, p.2))
      | '\x7b' :: rest =>
          match skipWs rest with
          | '\x7d' :: r => some (Json.obj [], r)
          | _ => (parseMembersLoop fuel rest).map (fun p => (Json.obj p.1, p.2))
      | c :: rest =>
          if c == '-' || c.isDigit then parseNumberFrom (c :: rest) else none

/-- Parse the non-empty element list of a JSON array up to `]`. -/
def parseElemsLoop : Nat → List Char → Option (List Json × List Char)
  | 0, _ => none
  | fuel + 1, cs =>
      match parseValue fuel cs with
      | none => none
      | some (v, r) =>
          match skipWs r with
          | ',' :: r2 => (parseElemsLoop fuel r2).map (fun p => (v :: p.1, p.2))
          | ']' :: r2 => some ([v], r2)
          | _ => none

/-- Parse the non-empty member list of a JSON object up to the closing
brace. -/
def parseMembersLoop : Nat → List Char → Option (List (String × Json) × List Char)
  | 0, _ => none
  | fuel + 1, cs =>
      match skipWs cs with
      | '\"' :: r =>
          match parseStringRest r with
          | none => none
          | some (k, r2) =>
              match skipWs r2 with
              | ':' :: r3 =>
                  match parseValue fuel r3 with
                  | none => none
                  | some (v, r4) =>
                      match skipWs r4 with
                      | ',' :: r5 =>
                          (parseMembersLoop fuel r5).map
                            (fun p => ((String.mk k, v) :: p.1, p.2))
                      | '\x7d' :: r5 => some ([(String.mk k, v)], r5)
                      | _ => none
              | _ => none
      | _ => none

end

/-- `serde_json::from_str` at the level of JSON values: parse one value and
require that only whitespace follows. -/
def jsonParse (cs : List Char) : Option Json :=
  match parseValue (2 * cs.length + 2) cs with
  | some (v, rest) => if skipWs rest = [] then some v else none
  | none => none

/-- Object field lookup by name (serde field matching; first occurrence). -/
def getField (fields : List (String × Json)) (k : String) : Option Json :=
  lookupKey fields k

/-- A JSON string, as a Rust `String` field. -/
def asString : Json → Option String
  | Json.str s => some s
  | _ => none

/-- A JSON boolean, as a Rust `bool` field. -/
def asBool : Json → Option Bool
  | Json.bool b => some b
  | _ => none

/-- A JSON number, as a Rust `u32` field: in range `[0, 2^32)`. -/
def asU32 : Json → Option Nat
  | Json.num n => if 0 ≤ n ∧ n < 4294967296 then some n.toNat else none
  | _ => none

/-- An `Option<u32>` field: missing or null deserializes to `None`; a
present value must be a u32. -/
def getOptU32 (fields : List (String × Json)) (k : String) : Option (Option Nat) :=
  match getField fields k with
  | none => some none
  | some Json.null => some none
  | some j =>
      match asU32 j with
      | some n => some (some n)
      | none => none

/-- Deserialize a `Message` (both fields required; unknown fields
ignored). -/
def messageOfJson : Json → Option Message
  | Json.obj fs =>
      match getField fs "role" with
      | some jr =>
          match asString jr, getField fs "content" with
          | some role, some jc =>
              match asString jc with
              | some content => some { role := role, content := content }
              | none => none
          | _, _ => none
      | none => none
  | _ => none

/-- `serde_json::from_str::<OllamaStreamChunk>` on one upstream line:
required fields `model`, `message`, `done`; optional u32 counts. -/
def parseOllamaStreamChunk (line : List Char) : Option OllamaStreamChunk :=
  match jsonParse line with
  | some (Json.obj fs) =>
      match getField fs "model" with
      | some jm =>
          match asString jm, getField fs "message" with
          | some model, some jmsg =>
              match messageOfJson jmsg, getField fs "done" with
              | some message, some jd =>
                  match asBool jd, getOptU32 fs "prompt_eval_count",
                        getOptU32 fs "eval_count" with
                  | some done, some pec, some ec =>
                      some { model := model, message := message, done := done,
                             prompt_eval_count := pec, eval_count := ec }
                  | _, _, _ => none
              | _, _ => none
          | _, _ => none
      | none => none
  | _ => none

/-! ## The streaming translator (providers/ollama.rs `chat_stream`) -/

/-- One emitted SSE frame: `data c` stands for the bytes
`data: <json(c)>\n\n` where `<json(c)>` is the serde serialization of the
chunk, and `doneSentinel` stands for the terminator bytes
`data: [DONE]\n\n`. -/
inductive SseFrame where
  | data (chunk : ChatCompletionChunk)
  | doneSentinel
deriving DecidableEq, Repr

/-- The per-parsed-line translation of `chat_stream` (ollama.rs lines
131-161): suppress the chunk when `message.content` is empty and `done` is
false, otherwise build the canonical chunk with the fixed response id and
timestamp, the request model, a single choice whose delta carries the line
content and no role, `finish_reason = "stop"` exactly when done, and usage
(with absent counts defaulting to zero and a u32 total) exactly when
done. -/
def translateLine (response_id : String) (timestamp : Nat) (model_name : String)
    (oc : OllamaStreamChunk) : Option ChatCompletionChunk :=
  if oc.message.content = "" ∧ oc.done = false then none
  else
    some
      { id := response_id, object := "chat.completion.chunk",
        created := timestamp, model := model_name,
        choices := [{ index := 0,
                      delta := { role := none, content := oc.message.content },
                      finish_reason := if oc.done then some "stop" else none }],
        usage :=
          if oc.done then
            some { prompt_tokens := oc.prompt_eval_count.getD 0,
                   completion_tokens := oc.eval_count.getD 0,
                   total_tokens :=
                     u32add (oc.prompt_eval_count.getD 0) (oc.eval_count.getD 0) }
          else none }

/-- Split a character list at every newline (every segment, including a
trailing empty one when the input ends with a newline). -/
def splitOnNl : List Char → List (List Char)
  | [] => [[]]
  | c :: rest =>
      match splitOnNl rest with
      | seg :: segs => if c = '\n' then [] :: seg :: segs else (c :: seg) :: segs
      | [] => [[]]

/-- Remove one trailing carriage return, as Rust `str::lines` does for
newline-terminated lines. -/
def stripTrailCr (cs : List Char) : List Char :=
  match cs.getLast? with
  | some '\r' => cs.dropLast
  | _ => cs

/-- Rust `str::lines`: split at `\n`, strip a `\r` before each split point,
keep a final non-terminated fragment as a line (without `\r` stripping), and
yield nothing after a terminating final newline. -/
def rustLines (cs : List Char) : List (List Char) :=
  if cs.isEmpty then []
  else
    let segs := splitOnNl cs
    segs.dropLast.map stripTrailCr ++
      (match segs.getLast? with
       | some [] => []
       | some l => [l]
       | none => [])

/-- Rust `char::is_whitespace` restricted to the ASCII whitespace that can
occur inside one line of the upstream protocol. -/
def rustWs (c : Char) : Bool :=
  c == ' ' || c == '\t' || c == '\n' || c == '\r'

/-- Rust `str::trim` (over the modelled whitespace set). -/
def rustTrim (cs : List Char) : List Char :=
  ((cs.dropWhile rustWs).reverse.dropWhile rustWs).reverse

/-- The frames produced from one line of one decoded read (ollama.rs lines
124-171): blank lines are skipped, lines that fail to parse are logged and
skipped, parsed lines go through `translateLine`. -/
def framesOfLine (response_id : String) (timestamp : Nat) (model_name : String)
    (line : List Char) : List SseFrame :=
  if (rustTrim line).isEmpty then []
  else
    match parseOllamaStreamChunk line with
    | some oc =>
        match translateLine response_id timestamp model_name oc with
        | some c => [SseFrame.data c]
        | none => []
    | none => []

/-- The frames produced from one network read: the read is decoded as text
and split into lines independently of every other read (ollama.rs lines
122-124) — no partial-line buffer is carried between reads. -/
def framesOfText (response_id : String) (timestamp : Nat) (model_name : String)
    (text : String) : List SseFrame :=
  (rustLines text.data).flatMap (framesOfLine response_id timestamp model_name)

/-- The frames produced from the whole upstream byte stream: reads are
processed in order until the first stream error, which breaks the loop
(ollama.rs lines 173-176). -/
def framesOfReads (response_id : String) (timestamp : Nat) (model_name : String) :
    List (Except String String) → List SseFrame
  | [] => []
  | Except.ok text :: rest =>
      framesOfText response_id timestamp model_name text ++
        framesOfReads response_id timestamp model_name rest
  | Except.error _ :: _ => []

/-- The full output of the translator stream: the frames of all reads up to
the first error, then the `[DONE]` terminator (ollama.rs line 179), which is
emitted unconditionally after the loop ends. -/
def chatStreamOutput (response_id : String) (timestamp : Nat) (model_name : String)
    (reads : List (Except String String)) : List SseFrame :=
  framesOfReads response_id timestamp model_name reads ++ [SseFrame.doneSentinel]

/-! ## Concrete instances used by counterexamples and witnesses -/

/-- A `GET /v1/health` request with no Authorization header. -/
def c1NoAuthReq : GatewayRequest :=
  { method := "GET", path := "/v1/health", authHeader := none }

/-- A `GET /v1/health` request with an unrecognized bearer token. -/
def c1BadTokenReq : GatewayRequest :=
  { method := "GET", path := "/v1/health", authHeader := some "Bearer wrong" }

/-- A `GET /v1/health` request with a recognized user token. -/
def c1GoodTokenReq : GatewayRequest :=
  { method := "GET", path := "/v1/health", authHeader := some "Bearer k1" }

/-- A successful upstream body for the non-streaming chat path (spec
scenario 3: counts 3 and 5). -/
def c2Upstream : OllamaResponse :=
  { model := "m", created_at := "2024-01-01", message := { role := "assistant", content := "hello" },
    done := true, total_duration := 1, prompt_eval_count := 3, eval_count := 5 }

/-- An upstream line whose u32 counts sum past `2^32` (each count is
`2^31`, in range for u32, so serde accepts the line). -/
def c3OverflowLine : String :=
  "\x7b\"model\":\"m\",\"message\":\x7b\"role\":\"assistant\",\"content\":\"\"\x7d,\"done\":true,\"prompt_eval_count\":2147483648,\"eval_count\":2147483648\x7d"

/-- The parse of `c3OverflowLine`. -/
def c3OverflowChunk : OllamaStreamChunk :=
  { model := "m", message := { role := "assistant", content := "" }, done := true,
    prompt_eval_count := some 2147483648, eval_count := some 2147483648 }

/-- The canonical chunk the translator emits for `c3OverflowChunk`: the u32
total wraps to 0. -/
def c3OverflowOut : ChatCompletionChunk :=
  { id := "rid", object := "chat.completion.chunk", created := 7, model := "m",
    choices := [{ index := 0, delta := { role := none, content := "" },
                  finish_reason := some "stop" }],
    usage := some { prompt_tokens := 2147483648, completion_tokens := 2147483648,
                    total_tokens := 0 } }

/-- A surviving non-terminal upstream chunk. -/
def c3ContentChunk : OllamaStreamChunk :=
  { model := "m", message := { role := "assistant", content := "he" }, done := false,
    prompt_eval_count := none, eval_count := none }

/-- The canonical chunk the translator emits for `c3ContentChunk`. -/
def c3ContentOut : ChatCompletionChunk :=
  { id := "rid", object := "chat.completion.chunk", created := 7, model := "m",
    choices := [{ index := 0, delta := { role := none, content := "he" },
                  finish_reason := none }],
    usage := none }

/-- One complete upstream read: a single JSON line plus its newline. -/
def c5FullRead : String :=
  "\x7b\"model\":\"m\",\"message\":\x7b\"role\":\"assistant\",\"content\":\"hi\"\x7d,\"done\":false\x7d\n"

/-- The same bytes, first network read: the first 30 characters (the line is
split in the middle, as TCP may deliver it). -/
def c5ReadA : String := String.mk (c5FullRead.data.take 30)

/-- The same bytes, second network read: the rest. -/
def c5ReadB : String := String.mk (c5FullRead.data.drop 30)

/-- The chunk emitted when the line arrives intact. -/
def c5Chunk : ChatCompletionChunk :=
  { id := "rid", object := "chat.completion.chunk", created := 7, model := "m",
    choices := [{ index := 0, delta := { role := none, content := "hi" },
                  finish_reason := none }],
    usage := none }

/-- A primary provider that fails with a network error. -/
def c6Primary : ChatCompletionRequest → Except ProviderError ChatCompletionResponse :=
  fun _ => Except.error (ProviderError.network "connection refused")

/-- A fixed canonical response. -/
def c6Resp : ChatCompletionResponse :=
  { id := "chatcmpl-1", object := "chat.completion", created := 0, model := "gpt-4o-mini",
    choices := [], usage := { prompt_tokens := 0, completion_tokens := 0, total_tokens := 0 } }

/-- A backup provider that always succeeds with `c6Resp`. -/
def c6Backup : ChatCompletionRequest → Except ProviderError ChatCompletionResponse :=
  fun _ => Except.ok c6Resp

/-- A request addressed to the primary model. -/
def c6Req : ChatCompletionRequest :=
  { model := "llama3.2", messages := [{ role := "user", content := "hi" }], stream := none }

/-- A tracker with one key whose timestamp is 1.5 ms past the epoch (any
`SystemTime::now()` with a sub-millisecond part gives such a value). -/
def c9BadTracker : RequestTracker := ⟨[("k1", KeyStats.new 1500000)]⟩

/-- A tracker whose timestamps are whole milliseconds. -/
def c9GoodTracker : RequestTracker := ⟨[("k1", KeyStats.new 2000000)]⟩

/-- A key of 9 characters and 11 UTF-8 bytes whose byte index 4 falls inside
the three-byte encoding of the euro sign: reachable as the `key` query
parameter of `/v1/stats`. -/
def c10Key : String := "abc€xyzzz"

/-! ## Helper lemmas -/

/-- Looking up the touched key after `entry(key).or_insert_with(default)`
plus mutation `f` yields `f` of the previous value (or of the default). -/
theorem lookupKey_updateAssoc {α : Type} (l : List (String × α)) (key : String)
    (d : α) (f : α → α) :
    lookupKey (updateAssoc l key d f) key = some (f ((lookupKey l key).getD d)) := by
  induction l with
  | nil => simp [updateAssoc, lookupKey]
  | cons e rest ih =>
      obtain ⟨k, v⟩ := e
      by_cases h : k = key
      · simp [updateAssoc, lookupKey, h]
      · simp [updateAssoc, lookupKey, h, ih]

/-- The translator suppresses a parsed line exactly when the content is
empty and the line is not terminal. -/
theorem translateLine_none_iff (rid : String) (ts : Nat) (mn : String)
    (oc : OllamaStreamChunk) :
    translateLine rid ts mn oc = none ↔ (oc.message.content = "" ∧ oc.done = false) := by
  by_cases h : oc.message.content = "" ∧ oc.done = false
  · simp [translateLine, h]
  · simp [translateLine, h]

/-- Field contents of every emitted chunk. -/
theorem translateLine_some_spec (rid : String) (ts : Nat) (mn : String)
    (oc : OllamaStreamChunk) (c : ChatCompletionChunk)
    (h : translateLine rid ts mn oc = some c) :
    c.id = rid ∧ c.object = "chat.completion.chunk" ∧ c.created = ts ∧ c.model = mn ∧
    c.choices = [{ index := 0,
                   delta := { role := none, content := oc.message.content },
                   finish_reason := if oc.done then some "stop" else none }] ∧
    c.usage = (if oc.done then
        some { prompt_tokens := oc.prompt_eval_count.getD 0,
               completion_tokens := oc.eval_count.getD 0,
               total_tokens := u32add (oc.prompt_eval_count.getD 0) (oc.eval_count.getD 0) }
      else none) := by
  by_cases hs : oc.message.content = "" ∧ oc.done = false
  · simp [translateLine, hs] at h
  · rw [translateLine, if_neg hs] at h
    obtain rfl := (Option.some_inj.mp h).symm
    refine ⟨rfl, rfl, rfl, rfl, rfl, rfl⟩

/-- Every frame produced from one line is the translation of a parsed
chunk. -/
theorem mem_framesOfLine (rid : String) (ts : Nat) (mn : String) (line : List Char)
    (f : SseFrame) (h : f ∈ framesOfLine rid ts mn line) :
    ∃ oc c, translateLine rid ts mn oc = some c ∧ f = SseFrame.data c := by
  by_cases ht : (rustTrim line).isEmpty
  · simp [framesOfLine, ht] at h
  · rw [framesOfLine, if_neg (by simpa using ht)] at h
    cases hp : parseOllamaStreamChunk line with
    | none => simp only [hp] at h; simp at h
    | some oc =>
        simp only [hp] at h
        cases htr : translateLine rid ts mn oc with
        | none => simp only [htr] at h; simp at h
        | some c =>
            simp only [htr] at h
            simp at h
            exact ⟨oc, c, htr, h⟩

/-- Every frame produced from one read is the translation of a parsed
chunk. -/
theorem mem_framesOfText (rid : String) (ts : Nat) (mn : String) (text : String)
    (f : SseFrame) (h : f ∈ framesOfText rid ts mn text) :
    ∃ oc c, translateLine rid ts mn oc = some c ∧ f = SseFrame.data c := by
  rw [framesOfText] at h
  rw [List.mem_flatMap] at h
  obtain ⟨line, _, hf⟩ := h
  exact mem_framesOfLine rid ts mn line f hf

/-- Every frame produced from the read loop is the translation of a parsed
chunk. -/
theorem mem_framesOfReads (rid : String) (ts : Nat) (mn : String)
    (reads : List (Except String String)) (f : SseFrame)
    (h : f ∈ framesOfReads rid ts mn reads) :
    ∃ oc c, translateLine rid ts mn oc = some c ∧ f = SseFrame.data c := by
  induction reads with
  | nil => simp [framesOfReads] at h
  | cons hd rest ih =>
      cases hd with
      | ok text =>
          rw [framesOfReads] at h
          rcases List.mem_append.mp h with h1 | h2
          · exact mem_framesOfText rid ts mn text f h1
          · exact ih h2
      | error e => simp [framesOfReads] at h

/-- The value stored under the touched key after `record_tokens`. -/
theorem get_stats_record_tokens (T : RequestTracker) (now : Int) (key : String)
    (p c : Nat) (m : String) :
    (T.record_tokens now key p c m).get_stats key =
      some (let s := (T.get_stats key).getD (KeyStats.new now)
            { s with total_prompt_tokens := s.total_prompt_tokens + p,
                     total_completion_tokens := s.total_completion_tokens + c,
                     models_used := bumpModel s.models_used m }) := by
  simp only [RequestTracker.record_tokens, RequestTracker.get_stats]
  rw [lookupKey_updateAssoc]

/-- Millisecond round trip is the identity on in-range whole-millisecond
timestamps. -/
theorem millis_round_trip (t : Int) (h0 : 0 ≤ t) (hmod : t % 1000000 = 0)
    (hlt : t < 1000000 * 18446744073709551616) :
    millisToSystemTime (systemTimeToMillis t) = t := by
  have hmax : max t 0 = t := max_eq_left h0
  have hn : ((t.toNat : Int)) = t := Int.toNat_of_nonneg h0
  have hdvd : (1000000 : Int) ∣ t := Int.dvd_of_emod_eq_zero hmod
  have hdvdn : 1000000 ∣ t.toNat := by
    rcases hdvd with ⟨k, hk⟩
    have hk0 : 0 ≤ k := by nlinarith [hk ▸ h0]
    refine ⟨k.toNat, ?_⟩
    have : ((1000000 * k.toNat : Nat) : Int) = t := by
      push_cast [Int.toNat_of_nonneg hk0]
      omega
    omega
  have hltn : t.toNat < 1000000 * 18446744073709551616 := by omega
  have hdivlt : t.toNat / 1000000 < 18446744073709551616 := by
    have := (Nat.div_lt_iff_lt_mul (by norm_num : 0 < 1000000)).mpr
      (by omega : t.toNat < 18446744073709551616 * 1000000)
    exact this
  rw [systemTimeToMillis, millisToSystemTime, hmax]
  rw [Nat.mod_eq_of_lt hdivlt]
  have hcancel : t.toNat / 1000000 * 1000000 = t.toNat := Nat.div_mul_cancel hdvdn
  push_cast
  omega

/-- Save then load is the identity on one `KeyStats` record whose timestamp
is a whole in-range millisecond count. -/
theorem keyStats_round_trip (s : KeyStats) (h0 : 0 ≤ s.last_request_timestamp)
    (hmod : s.last_request_timestamp % 1000000 = 0)
    (hlt : s.last_request_timestamp < 1000000 * 18446744073709551616) :
    KeyStats.ofStored s.toStored = s := by
  obtain ⟨rc, ec, tl, tp, tc, mu, ts⟩ := s
  simp only [KeyStats.toStored, KeyStats.ofStored] at *
  rw [millis_round_trip ts h0 hmod hlt]

/-! ## Claim theorems -/

/-- C1 counterexample: a `GET /v1/health` request with no Authorization
header (or with an unrecognized token) is rejected by the auth layer with
401 `Invalid or missing API key` under the default key configuration — it
does not receive 200 `ok`, contradicting the claim that the auth layer does
not reject this route. -/
theorem c1_health_counterexample :
    authedHealthApp defaultApiKeys [] c1NoAuthReq =
      { status := 401, body := "Invalid or missing API key" } ∧
    authedHealthApp defaultApiKeys [] c1NoAuthReq ≠ { status := 200, body := "ok" } ∧
    authedHealthApp defaultApiKeys [] c1BadTokenReq =
      { status := 401, body := "Invalid or missing API key" } := by
  refine ⟨by decide, by decide, by decide⟩

/-- C1 (amended): the auth middleware treats `/v1/health` like every other
route: a request whose bearer token resolves to no role is rejected with
401 `Invalid or missing API key`, and a request with a recognized token
passes auth and receives 200 `ok` from the health handler. -/
theorem c1_health_auth (api_keys admin_keys : List String) (req : GatewayRequest) :
    ((req.authHeader.bind stripBearer).bind (roleFor api_keys admin_keys) = none →
      authedHealthApp api_keys admin_keys req =
        { status := 401, body := "Invalid or missing API key" }) ∧
    (∀ t r, req.authHeader.bind stripBearer = some t →
      roleFor api_keys admin_keys t = some r →
      authedHealthApp api_keys admin_keys req = { status := 200, body := "ok" }) := by
  constructor
  · intro h
    cases htok : req.authHeader.bind stripBearer with
    | none => simp [authedHealthApp, authCall, htok]
    | some t =>
        have hrole : roleFor api_keys admin_keys t = none := by
          simpa [htok] using h
        simp [authedHealthApp, authCall, htok, hrole]
  · intro t r htok hrole
    simp [authedHealthApp, authCall, htok, hrole, healthHandler]

/-- C1 witness: with user key `k1` configured, `GET /v1/health` carrying
`Bearer k1` returns 200 `ok`. -/
theorem c1_health_auth_witness :
    authedHealthApp ["k1"] [] c1GoodTokenReq = { status := 200, body := "ok" } :=
  (c1_health_auth ["k1"] [] c1GoodTokenReq).2 "k1" ApiKeyRole.user (by decide) (by decide)

/-- C2: the non-streaming chat handler never touches the tracker — in every
branch the tracker comes back unchanged, even on a successful upstream
response, where the claim (and the doc comment of
`RequestTracker::record_tokens`) expects the response usage to be recorded
under the caller key. -/
theorem c2_handler_records_no_tokens :
    (∀ (uuid : String) (ts : Nat) (up : UpstreamOutcome) (T : RequestTracker),
      (chat_completions_nonstreaming uuid ts up T).2 = T) ∧
    chat_completions_nonstreaming "u" 7 (UpstreamOutcome.success c2Upstream) ⟨[]⟩ =
      (ChatHttpResponse.okJson (buildChatResponse "u" 7 c2Upstream), ⟨[]⟩) ∧
    (RequestTracker.mk []).get_stats "k1" = none := by
  refine ⟨?_, rfl, rfl⟩
  intro uuid ts up T
  cases up <;> rfl

set_option maxRecDepth 8000 in
/-- C3 counterexample: the upstream line `c3OverflowLine` parses
successfully (both counts are valid u32 values), yet the emitted terminal
chunk carries `total_tokens = 0` rather than the claimed
`prompt + completion = 2^32`, because the source adds the two u32 counts
with wrapping u32 arithmetic. -/
theorem c3_total_tokens_counterexample :
    parseOllamaStreamChunk c3OverflowLine.data = some c3OverflowChunk ∧
    translateLine "rid" 7 "m" c3OverflowChunk = some c3OverflowOut ∧
    c3OverflowOut.usage.map Usage.total_tokens = some 0 ∧
    c3OverflowOut.usage.map Usage.total_tokens ≠ some (2147483648 + 2147483648) := by
  refine ⟨by decide, by decide, by decide, by decide⟩

/-- C3 (amended): for every parsed upstream line, lines with empty content
and `done = false` are suppressed (and only those); every surviving line
yields exactly one data frame; the emitted chunk has the stream's fixed id
and created, the request model, object `chat.completion.chunk`, a single
choice with delta content equal to the line content, no delta role,
`finish_reason = "stop"` iff done, and usage present iff done with absent
counts defaulting to zero and `total_tokens` the u32 wrapping sum of the
counts (equal to `prompt + completion` whenever that sum is below `2^32`);
and every data chunk of a whole stream shares the same id, created and
model. -/
theorem c3_stream_chunk_shape (rid : String) (ts : Nat) (mn : String)
    (oc : OllamaStreamChunk) :
    (translateLine rid ts mn oc = none ↔
      (oc.message.content = "" ∧ oc.done = false)) ∧
    (∀ line : List Char, (rustTrim line).isEmpty = false →
      parseOllamaStreamChunk line = some oc →
      framesOfLine rid ts mn line = (translateLine rid ts mn oc).toList.map SseFrame.data) ∧
    (∀ c, translateLine rid ts mn oc = some c →
      c.id = rid ∧ c.object = "chat.completion.chunk" ∧ c.created = ts ∧ c.model = mn ∧
      c.choices = [{ index := 0,
                     delta := { role := none, content := oc.message.content },
                     finish_reason := if oc.done then some "stop" else none }] ∧
      c.usage = (if oc.done then
          some { prompt_tokens := oc.prompt_eval_count.getD 0,
                 completion_tokens := oc.eval_count.getD 0,
                 total_tokens := u32add (oc.prompt_eval_count.getD 0) (oc.eval_count.getD 0) }
        else none)) ∧
    (∀ (reads : List (Except String String)) (c : ChatCompletionChunk),
      SseFrame.data c ∈ chatStreamOutput rid ts mn reads →
      c.id = rid ∧ c.created = ts ∧ c.model = mn) := by
  refine ⟨translateLine_none_iff rid ts mn oc, ?_, ?_, ?_⟩
  · intro line htrim hparse
    cases htr : translateLine rid ts mn oc with
    | none => simp [framesOfLine, htrim, hparse, htr]
    | some c => simp [framesOfLine, htrim, hparse, htr]
  · intro c h
    exact translateLine_some_spec rid ts mn oc c h
  · intro reads c h
    rcases List.mem_append.mp h with h1 | h2
    · obtain ⟨oc2, c2, htr, heq⟩ := mem_framesOfReads rid ts mn reads _ h1
      obtain rfl : c = c2 := by simpa using heq
      obtain ⟨h1, _, h3, h4, _⟩ := translateLine_some_spec rid ts mn oc2 c htr
      exact ⟨h1, h3, h4⟩
    · simp at h2

/-- C3 witness: the amended theorem evaluated on a concrete surviving
non-terminal line. -/
theorem c3_stream_chunk_shape_witness :
    c3ContentOut.id = "rid" ∧ c3ContentOut.object = "chat.completion.chunk" ∧
    c3ContentOut.created = 7 ∧ c3ContentOut.model = "m" ∧
    c3ContentOut.choices = [{ index := 0,
                              delta := { role := none,
                                         content := c3ContentChunk.message.content },
                              finish_reason := if c3ContentChunk.done then some "stop"
                                               else none }] ∧
    c3ContentOut.usage = (if c3ContentChunk.done then
        some { prompt_tokens := c3ContentChunk.prompt_eval_count.getD 0,
               completion_tokens := c3ContentChunk.eval_count.getD 0,
               total_tokens := u32add (c3ContentChunk.prompt_eval_count.getD 0)
                 (c3ContentChunk.eval_count.getD 0) }
      else none) :=
  (c3_stream_chunk_shape "rid" 7 "m" c3ContentChunk).2.2.1 c3ContentOut (by decide)

/-- C4: every translator stream is a list of data frames followed by exactly
one `[DONE]` sentinel, which is strictly last; this holds for every read
sequence, including those that end in a mid-flight stream error (the loop
breaks and the sentinel is still emitted after it). -/
theorem c4_done_sentinel_exactly_once_last (rid : String) (ts : Nat) (mn : String)
    (reads : List (Except String String)) :
    ∃ body, chatStreamOutput rid ts mn reads = body ++ [SseFrame.doneSentinel] ∧
      SseFrame.doneSentinel ∉ body ∧
      ∀ f ∈ body, ∃ c, f = SseFrame.data c := by
  refine ⟨framesOfReads rid ts mn reads, rfl, ?_, ?_⟩
  · intro hmem
    obtain ⟨oc, c, _, heq⟩ := mem_framesOfReads rid ts mn reads _ hmem
    exact SseFrame.noConfusion heq
  · intro f hf
    obtain ⟨oc, c, _, heq⟩ := mem_framesOfReads rid ts mn reads f hf
    exact ⟨c, heq⟩

/-- C5: the translator output is not invariant under re-chunking.  The same
upstream bytes delivered as one read produce one content frame and the
sentinel; delivered as two reads that split the JSON line at character 30,
both fragments fail to parse (each read is decoded and split into lines
independently, with no partial-line buffer), so the content frame is lost
and only the sentinel is emitted. -/
theorem c5_rechunking_changes_output :
    c5ReadA.data ++ c5ReadB.data = c5FullRead.data ∧
    chatStreamOutput "rid" 7 "m" [Except.ok c5FullRead] =
      [SseFrame.data c5Chunk, SseFrame.doneSentinel] ∧
    chatStreamOutput "rid" 7 "m" [Except.ok c5ReadA, Except.ok c5ReadB] =
      [SseFrame.doneSentinel] ∧
    chatStreamOutput "rid" 7 "m" [Except.ok c5ReadA, Except.ok c5ReadB] ≠
      chatStreamOutput "rid" 7 "m" [Except.ok c5FullRead] := by
  refine ⟨by decide, by decide, by decide, by decide⟩

/-- C6: `FallbackProvider::chat` returns the primary result on success
without consulting the backup; on any primary error it calls the backup
exactly once, with the request unchanged except that the model is replaced
by the configured `fallback_model` (when present), and returns the backup
result verbatim. -/
theorem c6_fallback_chat
    (primary backup : ChatCompletionRequest → Except ProviderError ChatCompletionResponse)
    (fm : Option String) (r : ChatCompletionRequest) :
    (∀ v, primary r = Except.ok v →
      fallbackChat primary backup fm r = (Except.ok v, [])) ∧
    (∀ e, primary r = Except.error e →
      fallbackChat primary backup fm r =
        (backup (overrideModel fm r), [overrideModel fm r]) ∧
      (overrideModel fm r).messages = r.messages ∧
      (overrideModel fm r).stream = r.stream ∧
      (∀ m2, fm = some m2 → (overrideModel fm r).model = m2) ∧
      (fm = none → overrideModel fm r = r)) := by
  constructor
  · intro v hv
    simp [fallbackChat, hv]
  · intro e he
    refine ⟨by simp [fallbackChat, he], ?_, ?_, ?_, ?_⟩
    · cases fm <;> simp [overrideModel]
    · cases fm <;> simp [overrideModel]
    · intro m2 hm
      subst hm
      simp [overrideModel]
    · intro hm
      subst hm
      rfl

/-- C6 witness: a failing primary with `fallback_model = some "gpt-4o-mini"`
invokes the backup once on the model-overridden request and returns its
success verbatim. -/
theorem c6_fallback_chat_witness :
    fallbackChat c6Primary c6Backup (some "gpt-4o-mini") c6Req =
      (c6Backup (overrideModel (some "gpt-4o-mini") c6Req),
       [overrideModel (some "gpt-4o-mini") c6Req]) :=
  ((c6_fallback_chat c6Primary c6Backup (some "gpt-4o-mini") c6Req).2
    (ProviderError.network "connection refused") rfl).1

/-- C7: the token bucket invariant `0 ≤ tokens ≤ capacity` holds at
construction (the bucket starts full) and is preserved by every
`try_consume` (the refill is capped at capacity and one token is subtracted
only when at least one token is present); a bucket whose refilled level is
exactly 1.0 admits the request. -/
theorem c7_bucket_invariant :
    (∀ cap rate now : ℚ, 0 ≤ cap → Bucket.Inv (Bucket.new cap rate now)) ∧
    (∀ (b : Bucket) (now : ℚ), Bucket.Inv b → 0 ≤ b.refill_rate →
      Bucket.Inv (b.try_consume now).2) ∧
    (∀ (b : Bucket) (now : ℚ), b.refilledTokens now = 1 →
      (b.try_consume now).1 = true) := by
  refine ⟨?_, ?_, ?_⟩
  · intro cap rate now h
    exact ⟨h, le_refl _⟩
  · intro b now hInv hRate
    obtain ⟨h0, hc⟩ := hInv
    have he0 : (0 : ℚ) ≤ max (now - b.last_updated) 0 := le_max_right _ _
    have hr : (0 : ℚ) ≤ b.tokens + max (now - b.last_updated) 0 * b.refill_rate :=
      add_nonneg h0 (mul_nonneg he0 hRate)
    have hcap0 : (0 : ℚ) ≤ b.capacity := le_trans h0 hc
    have hmin0 : (0 : ℚ) ≤ b.refilledTokens now := le_min hr hcap0
    have hminc : b.refilledTokens now ≤ b.capacity := min_le_right _ _
    rw [Bucket.try_consume]
    by_cases h1 : (1 : ℚ) ≤ b.refilledTokens now
    · rw [if_pos h1]
      exact ⟨show (0 : ℚ) ≤ b.refilledTokens now - 1 by linarith,
             show b.refilledTokens now - 1 ≤ b.capacity by linarith⟩
    · rw [if_neg h1]
      exact ⟨hmin0, hminc⟩
  · intro b now h
    rw [Bucket.try_consume, h]
    norm_num

/-- C7 witness: a fresh 60-token bucket satisfies the invariant, still
satisfies it after a consume, and admits when the refilled level is exactly
one token. -/
theorem c7_bucket_invariant_witness :
    Bucket.Inv (Bucket.new 60 1 0) ∧
    Bucket.Inv ((Bucket.new 60 1 0).try_consume 0).2 ∧
    ((Bucket.mk 1 0 60 1).try_consume 0).1 = true := by
  have hnew := (c7_bucket_invariant.1) 60 1 0 (by norm_num)
  refine ⟨hnew, ?_, ?_⟩
  · exact (c7_bucket_invariant.2.1) (Bucket.new 60 1 0) 0 hnew (by norm_num [Bucket.new])
  · refine (c7_bucket_invariant.2.2) (Bucket.mk 1 0 60 1) 0 ?_
    rw [Bucket.refilledTokens]
    norm_num

/-- C8: `record_tokens` leaves `request_count`, `error_count`,
`total_latency_ms` and `last_request_timestamp` of the touched key exactly
as they were when the key already exists; on first touch it creates the
entry freshly (zeroed counters, timestamp set by `KeyStats::new` to the call
instant) and stores only the token counts and the model bump. -/
theorem c8_record_tokens_frame (T : RequestTracker) (now : Int) (key : String)
    (p c : Nat) (m : String) :
    (∀ s, T.get_stats key = some s →
      ∃ s2, (T.record_tokens now key p c m).get_stats key = some s2 ∧
        s2.request_count = s.request_count ∧
        s2.error_count = s.error_count ∧
        s2.total_latency_ms = s.total_latency_ms ∧
        s2.last_request_timestamp = s.last_request_timestamp ∧
        s2.total_prompt_tokens = s.total_prompt_tokens + p ∧
        s2.total_completion_tokens = s.total_completion_tokens + c) ∧
    (T.get_stats key = none →
      ∃ s2, (T.record_tokens now key p c m).get_stats key = some s2 ∧
        s2.request_count = 0 ∧ s2.error_count = 0 ∧ s2.total_latency_ms = 0 ∧
        s2.last_request_timestamp = now ∧
        s2.total_prompt_tokens = p ∧ s2.total_completion_tokens = c ∧
        s2.models_used = [(m, 1)]) := by
  constructor
  · intro s hs
    refine ⟨{ s with total_prompt_tokens := s.total_prompt_tokens + p,
                     total_completion_tokens := s.total_completion_tokens + c,
                     models_used := bumpModel s.models_used m },
            ?_, rfl, rfl, rfl, rfl, rfl, rfl⟩
    rw [get_stats_record_tokens, hs]
    rfl
  · intro hs
    refine ⟨⟨0, 0, 0, p, c, [(m, 1)], now⟩,
            ?_, rfl, rfl, rfl, rfl, rfl, rfl, rfl⟩
    rw [get_stats_record_tokens, hs]
    simp [KeyStats.new, bumpModel, updateAssoc]

/-- C8 witness: the frame condition evaluated on a concrete tracker that
already holds the key. -/
theorem c8_record_tokens_frame_witness :
    ∃ s2, ((RequestTracker.mk [("k1", KeyStats.new 5)]).record_tokens 9 "k1" 3 5 "m").get_stats "k1" =
        some s2 ∧
      s2.request_count = (KeyStats.new 5).request_count ∧
      s2.error_count = (KeyStats.new 5).error_count ∧
      s2.total_latency_ms = (KeyStats.new 5).total_latency_ms ∧
      s2.last_request_timestamp = (KeyStats.new 5).last_request_timestamp ∧
      s2.total_prompt_tokens = (KeyStats.new 5).total_prompt_tokens + 3 ∧
      s2.total_completion_tokens = (KeyStats.new 5).total_completion_tokens + 5 :=
  (c8_record_tokens_frame (RequestTracker.mk [("k1", KeyStats.new 5)]) 9 "k1" 3 5 "m").1
    (KeyStats.new 5) (by decide)

/-- C9 counterexample: a tracker whose only timestamp is 1.5 ms past the
epoch (nanosecond-precision `SystemTime::now()` values generically have a
sub-millisecond part) does not survive the save/load round trip: the stored
form keeps whole milliseconds, so the loaded timestamp is 1 ms. -/
theorem c9_round_trip_counterexample :
    trackerRoundTrip c9BadTracker ≠ c9BadTracker ∧
    (trackerRoundTrip c9BadTracker).get_stats "k1" = some (KeyStats.new 1000000) := by
  refine ⟨by decide, by decide⟩

/-- C9 (amended): `load(save(T)) = T` holds for every tracker whose
timestamps are whole milliseconds, at or after the epoch, and below the u64
millisecond bound; every other `KeyStats` field is always preserved
exactly. -/
theorem c9_round_trip (T : RequestTracker)
    (h : ∀ e ∈ T.stats, 0 ≤ e.2.last_request_timestamp ∧
      e.2.last_request_timestamp % 1000000 = 0 ∧
      e.2.last_request_timestamp < 1000000 * 18446744073709551616) :
    trackerRoundTrip T = T := by
  obtain ⟨l⟩ := T
  simp only [trackerRoundTrip, RequestTracker.toStored, RequestTracker.ofStored,
    List.map_map, RequestTracker.mk.injEq]
  have hid : ∀ e ∈ l,
      ((fun e : String × StoredKeyStats => (e.1, KeyStats.ofStored e.2)) ∘
        (fun e : String × KeyStats => (e.1, e.2.toStored))) e = e := by
    intro e he
    obtain ⟨k, s⟩ := e
    obtain ⟨h0, hmod, hlt⟩ := h (k, s) he
    simp only [Function.comp_apply]
    rw [keyStats_round_trip s h0 hmod hlt]
  calc l.map (((fun e : String × StoredKeyStats => (e.1, KeyStats.ofStored e.2)) ∘
        (fun e : String × KeyStats => (e.1, e.2.toStored))))
      = l.map id := List.map_congr_left hid
    _ = l := List.map_id l

/-- C9 witness: a tracker with a whole-millisecond timestamp round-trips to
itself. -/
theorem c9_round_trip_witness : trackerRoundTrip c9GoodTracker = c9GoodTracker :=
  c9_round_trip c9GoodTracker (by decide)

/-- C10: `mask_key` is not total — on the 11-byte key `abc€xyzzz` the byte
slice `&key[..4]` splits the euro sign, so the function panics instead of
returning a masked string (the claim asserts it returns without
panicking). -/
theorem c10_mask_key_not_total :
    utf8Len c10Key.data = 11 ∧ 8 < utf8Len c10Key.data ∧
    mask_key c10Key.data = none ∧
    mask_key "123456789".data = some "1234***6789".data := by
  refine ⟨by decide, by decide, by decide, by decide⟩

end Gateway
